import Mathlib

/-!
Shallow embedding of the two command-line scripts of this repository:

* `src/tubular/scripts/frontend_deploy.py` — copies a frontend app dist
  directory to an S3 bucket and optionally purges the Cloudflare cache.
* `src/tubular/scripts/jenkins_trigger_build.py` — triggers a Jenkins job
  and compares the observed terminal status with an expected status.

External effects (the config-file read, the `aws s3 sync` subprocess, the
Cloudflare API, the Jenkins server) are modelled as explicit environment
parameters, and each run returns a result record carrying the process exit
code together with a trace of which remote actions were invoked.
-/

namespace Tubular

/-- A YAML scalar value as it can appear for the bucket-name key in the
environment config file. Mirrors the Python value categories that matter
for truthiness: null, booleans, integers and strings. -/
inductive ConfigVal
  | nullv
  | boolv (b : Bool)
  | intv (n : Int)
  | strv (s : String)
deriving DecidableEq, Repr

/-- Python truthiness of a config value (`if not bucket_name`). -/
def ConfigVal.truthy : ConfigVal → Bool
  | .nullv => false
  | .boolv b => b
  | .intv n => n != 0
  | .strv s => !s.isEmpty

/-- Python `str()` of a config value, used by `'s3://{}'.format(bucket_name)`. -/
def ConfigVal.toStr : ConfigVal → String
  | .nullv => "None"
  | .boolv true => "True"
  | .boolv false => "False"
  | .intv n => toString n
  | .strv s => s

/-- A parsed YAML mapping, as an association list (first binding wins,
like a Python dict lookup). -/
abbrev Config := List (String × ConfigVal)

/-- Model of `env_vars.get(key)`: `none` when the key is absent. -/
def Config.get (cfg : Config) (k : String) : Option ConfigVal :=
  (cfg.find? (fun p => p.1 == k)).map (fun p => p.2)

/-- Outcome of `io.open` + `yaml.safe_load` on the environment config file:
the open can raise `IOError` (caught by the script), the parse can raise a
YAML error (not caught by the script), or a mapping is produced. -/
inductive ReadResult
  | ioError
  | parseError
  | ok (cfg : Config)

/-- Responses the Cloudflare API would give this run: whether
`zones.get` raises `CloudFlareAPIError`, the list of matching zone records
(each record's optional `id` field; `none` models a record lacking the
`id` key), and whether `zones.purge_cache.post` raises. -/
structure CdnEnv where
  apiErrorOnGet : Bool
  zones : List (Option String)
  apiErrorOnPurge : Bool
deriving DecidableEq, Repr

/-- The external world a single publisher run interacts with: the config
file read, the exit status of the `aws s3 sync` subprocess, and the
Cloudflare API. -/
structure DeployEnv where
  readConfig : ReadResult
  syncExit : Int
  cdn : CdnEnv

/-- Observable outcome of one publisher run: the process exit code, the
formatted fatal log line (script short label, message) when the script
terminated through its `_fail` helper, whether it instead died from an
uncaught exception, and a trace of the remote actions taken. -/
structure FDResult where
  exitCode : Nat
  failLog : Option (String × String)
  uncaught : Bool
  syncInvoked : Bool
  cdnConstructed : Bool
  zoneLookup : Option String
  purgeCalled : Option (String × List String)
deriving DecidableEq, Repr

/-- The script's short label (`SCRIPT_SHORTNAME = 'Deploy frontend'`). -/
def SCRIPT_SHORTNAME : String := "Deploy frontend"

/-- Modelled from the spec: `tubular/scripts/helpers.py` (`_fail`, `_log`)
is not under `src/`. Per the spec, a fatal condition produces a single
human-readable log line naming the short label of the originating script
and the offending value, then terminates with the given exit code; the run
so far has invoked no further remote action. The pre-computed trace fields
of the run are supplied by the caller. -/
def FAIL (code : Nat) (msg : String) (syncInvoked cdnConstructed : Bool)
    (zoneLookup : Option String) (purgeCalled : Option (String × List String)) : FDResult :=
  { exitCode := code, failLog := some (SCRIPT_SHORTNAME, msg), uncaught := false,
    syncInvoked := syncInvoked, cdnConstructed := cdnConstructed,
    zoneLookup := zoneLookup, purgeCalled := purgeCalled }

/-- Python truthiness of a click string option (`None` when the flag is
absent; the empty string is also falsy). -/
def falsyOpt : Option String → Bool
  | none => true
  | some s => s.isEmpty

/-- Python `str.split(c)` on a list of characters: splits at every
occurrence of `c`, keeping empty pieces (so the result is always
nonempty). -/
def splitOnChar (c : Char) : List Char → List (List Char)
  | [] => [[]]
  | x :: xs =>
    match splitOnChar c xs with
    | [] => if x = c then [[], []] else [[x]]
    | y :: ys => if x = c then [] :: y :: ys else (x :: y) :: ys

/-- Python `bucket_name.split('.')`. -/
def pySplit (s : String) (c : Char) : List String :=
  (splitOnChar c s.toList).map (fun cs => String.mk cs)

/-- Python `'.'.join(labels)`. -/
def joinDots : List String → String
  | [] => ""
  | [x] => x
  | x :: xs => x ++ "." ++ joinDots xs

/-- Python `labels[-2:]`: the last two elements (the whole list when it
has fewer than two). -/
def lastTwo (l : List α) : List α := l.drop (l.length - 2)

/-- The zone-name derivation of `frontend_deploy.py` line 93:
`'.'.join(bucket_name.split('.')[-2:])`. -/
def zone_name (bucket_name : String) : String :=
  joinDots (lastTwo (pySplit bucket_name '.'))

/-- The Cloudflare purge block of `frontend_deploy.py` (lines 85-101),
entered after a successful sync with `purge_cache` set and a string bucket
name. Computes the zone name, constructs the client, calls `zones.get`
with the zone name, indexes `[0]['id']`, then posts the purge; the `try`
catches `CloudFlareAPIError`, `IndexError` and `KeyError` and fails with
exit code 1. -/
def purge_step (bucket_name : String) (cdn : CdnEnv) : FDResult :=
  let zn := zone_name bucket_name
  let failMsg := "Failed to purge the Cloudflare cache for hostname " ++ bucket_name ++ "."
  if cdn.apiErrorOnGet then
    FAIL 1 failMsg true true (some zn) none
  else
    match cdn.zones with
    | [] =>
      -- `[0]` raises IndexError, caught
      FAIL 1 failMsg true true (some zn) none
    | rec0 :: _ =>
      match rec0 with
      | none =>
        -- `['id']` raises KeyError, caught
        FAIL 1 failMsg true true (some zn) none
      | some zone_id =>
        if cdn.apiErrorOnPurge then
          FAIL 1 failMsg true true (some zn) (some (zone_id, [bucket_name]))
        else
          { exitCode := 0, failLog := none, uncaught := false, syncInvoked := true,
            cdnConstructed := true, zoneLookup := some zn,
            purgeCalled := some (zone_id, [bucket_name]) }

/-- The `frontend_deploy` command of `frontend_deploy.py`: validates the
three required options, reads and parses the config file, requires a
truthy `S3_BUCKET_NAME`, runs the sync subprocess, and optionally purges
the Cloudflare cache. A YAML parse error is not caught by the script
(only `IOError` is), so it terminates the process as an uncaught
exception (interpreter exit code 1, no formatted fail line); likewise a
non-string truthy bucket name crashes at `bucket_name.split('.')` in the
purge block with an uncaught `AttributeError`. -/
def frontend_deploy (env_config_file app_name app_dist : Option String)
    (purge_cache : Bool) (env : DeployEnv) : FDResult :=
  if falsyOpt env_config_file then
    FAIL 1 "Environment config file was not specified." false false none none
  else if falsyOpt app_name then
    FAIL 1 "Frontend application name was not specified." false false none none
  else if falsyOpt app_dist then
    FAIL 1 "Frontend application dist path was not specified." false false none none
  else
    let ecf := env_config_file.getD ""
    let appName := app_name.getD ""
    match env.readConfig with
    | .ioError =>
      FAIL 1 ("Environment config file " ++ ecf ++ " could not be opened.") false false none none
    | .parseError =>
      { exitCode := 1, failLog := none, uncaught := true, syncInvoked := false,
        cdnConstructed := false, zoneLookup := none, purgeCalled := none }
    | .ok cfg =>
      match Config.get cfg "S3_BUCKET_NAME" with
      | none =>
        FAIL 1 ("No S3 bucket name configured for " ++ appName ++ ".") false false none none
      | some bucketVal =>
        if !bucketVal.truthy then
          FAIL 1 ("No S3 bucket name configured for " ++ appName ++ ".") false false none none
        else
          let bucket_uri := "s3://" ++ bucketVal.toStr
          -- `subprocess.Popen('aws s3 sync ...')` runs here; `proc.wait()` gives syncExit
          if env.syncExit != 0 then
            FAIL 1 ("Could not sync app " ++ appName ++ " with S3 bucket " ++ bucket_uri ++ ".")
              true false none none
          else if purge_cache then
            match bucketVal with
            | .strv b => purge_step b env.cdn
            | _ =>
              -- non-string bucket: `bucket_name.split` raises AttributeError, uncaught
              { exitCode := 1, failLog := none, uncaught := true, syncInvoked := true,
                cdnConstructed := false, zoneLookup := none, purgeCalled := none }
          else
            { exitCode := 0, failLog := none, uncaught := false, syncInvoked := true,
              cdnConstructed := false, zoneLookup := none, purgeCalled := none }

/-- The terminal build statuses imported from `jenkinsapi.constants`
(`STATUS_SUCCESS`, `STATUS_FAIL`, `STATUS_ERROR`, `STATUS_ABORTED`,
`STATUS_REGRESSION`). -/
inductive TerminalStatus
  | SUCCESS
  | FAIL
  | ERROR
  | ABORTED
  | REGRESSION
deriving DecidableEq, Repr

/-- A build instance on the Jenkins server: the job it belongs to and its
status over time (`none` while still running, `some s` once the terminal
status `s` is observable at that many seconds after triggering). -/
structure Build where
  job : String
  statusAt : Nat → Option TerminalStatus

/-- The Jenkins server as seen by one run: the builds queued on it, and
the index of the specific build instance that this invocation's trigger
call created (the instance the trigger call returns a handle to). -/
structure JenkinsServer where
  builds : List Build
  triggeredIdx : Nat

/-- One poll per second starting at time `t`, with `fuel` polls left:
returns the first terminal status observed, or `none` when the fuel runs
out without one. -/
def pollBuild (statusAt : Nat → Option TerminalStatus) : Nat → Nat → Option TerminalStatus
  | _, 0 => none
  | t, fuel + 1 =>
    match statusAt t with
    | some s => some s
    | none => pollBuild statusAt (t + 1) fuel

/-- Modelled from the spec: `tubular/jenkins.py` (`trigger_build`) is not
under `src/`. Per the spec, it submits the trigger request (job name, job
token, optional cause, ordered parameters) authenticated by the user name
and user token against the base URL, obtains the specific build instance
created by this trigger call, then polls that instance until it reaches
one of the terminal statuses or until the elapsed-time budget `timeout`
(seconds, wall-clock from the trigger) is exceeded. It returns the
observed terminal status, or a distinguished timeout value (`none`) when
no terminal status was observed in time. The poll interval is an
implementation tunable; it is modelled as one second, so polls happen at
elapsed times `0, 1, ..., timeout`. -/
def trigger_build (url user_name user_token job token : String)
    (cause : Option String) (params : List (String × String))
    (timeout : Nat) (server : JenkinsServer) : Option TerminalStatus :=
  match server.builds.get? server.triggeredIdx with
  | none => none
  | some b => pollBuild b.statusAt 0 (timeout + 1)

/-- The command-line flags passed to the trigger script, each `none` when
the flag is absent from the command line. -/
structure TriggerCli where
  url : Option String
  user_name : Option String
  user_token : Option String
  job : Option String
  token : Option String
  cause : Option String
  param : List (String × String)
  timeout : Option Nat
  expected_status : Option TerminalStatus

/-- The environment-variable fallbacks declared by the option spec
(`envvar='JENKINS_USER_TOKEN'` / `envvar='JENKINS_JOB_TOKEN'`). -/
structure JenkinsEnvVars where
  JENKINS_USER_TOKEN : Option String
  JENKINS_JOB_TOKEN : Option String

/-- How a run of the trigger script ends: `usage code` when click's
option parsing rejects the invocation before the callback runs (a missing
required option raises `UsageError`, whose process exit code is 2), or
`completed outcome` when the callback ran and returned the boolean
`status == expected_status`. -/
inductive TriggerRun
  | usage (exitCode : Nat)
  | completed (outcome : Bool)
deriving DecidableEq, Repr

/-- Whether the run reached the remote trigger call at all. -/
def TriggerRun.remoteCalled : TriggerRun → Bool
  | .usage _ => false
  | .completed _ => true

/-- The `trigger` command of `jenkins_trigger_build.py`, together with
click's resolution of its option declarations: each option takes its
command-line value, else its declared environment variable, else its
declared default (`url` defaults to the test Jenkins URL, `timeout` to
`30 * 60` seconds, `expected-status` to `STATUS_SUCCESS`); an option
declared `required=True` that resolves to no value aborts with a usage
error (exit code 2) before any remote call. Otherwise the callback runs:
`status = jenkins.trigger_build(...)` and the command returns
`status == expected_status`. -/
def trigger (cli : TriggerCli) (envv : JenkinsEnvVars) (server : JenkinsServer) : TriggerRun :=
  let url := cli.url.getD "https://test-jenkins.testeng.edx.org"
  let user_token := cli.user_token <|> envv.JENKINS_USER_TOKEN
  let token := cli.token <|> envv.JENKINS_JOB_TOKEN
  match cli.user_name, user_token, cli.job, token with
  | some user_name, some ut, some j, some tk =>
    let timeout := cli.timeout.getD (30 * 60)
    let expected_status := cli.expected_status.getD .SUCCESS
    let status := trigger_build url user_name ut j tk cli.cause cli.param timeout server
    .completed (decide (status = some expected_status))
  | _, _, _, _ => .usage 2

/-! ## Lemmas about the polling loop -/

/-- Polling over a window in which the build is never terminal yields the
distinguished timeout value. -/
theorem pollBuild_eq_none (statusAt : Nat → Option TerminalStatus) :
    ∀ fuel t, (∀ u, t ≤ u → u < t + fuel → statusAt u = none) →
      pollBuild statusAt t fuel = none := by
  intro fuel
  induction fuel with
  | zero => intro t _; rfl
  | succ n ih =>
    intro t h
    have h0 : statusAt t = none := h t le_rfl (by omega)
    unfold pollBuild
    rw [h0]
    exact ih (t + 1) (fun u hu1 hu2 => h u (by omega) (by omega))

/-! ## Claims about the CI trigger script -/

/-- C1: when the polled build reaches a terminal status within the
timeout, the reported outcome is the boolean equality of the observed
terminal status with the caller-specified expected status (defaulting to
SUCCESS); in particular observed SUCCESS under the default expectation
yields outcome true. -/
theorem trigger_reports_status_eq_expected
    (cli : TriggerCli) (envv : JenkinsEnvVars) (server : JenkinsServer)
    (un ut j tk : String) (s : TerminalStatus)
    (h1 : cli.user_name = some un)
    (h2 : (cli.user_token <|> envv.JENKINS_USER_TOKEN) = some ut)
    (h3 : cli.job = some j)
    (h4 : (cli.token <|> envv.JENKINS_JOB_TOKEN) = some tk)
    (h5 : trigger_build (cli.url.getD "https://test-jenkins.testeng.edx.org") un ut j tk
            cli.cause cli.param (cli.timeout.getD (30 * 60)) server = some s) :
    trigger cli envv server
        = .completed (decide (s = cli.expected_status.getD .SUCCESS))
      ∧ (cli.expected_status = none → s = .SUCCESS →
          trigger cli envv server = .completed true) := by
  have hmain : trigger cli envv server
      = .completed (decide (s = cli.expected_status.getD .SUCCESS)) := by
    unfold trigger
    rw [h1, h2, h3, h4]
    simp only [h5, Option.some.injEq, decide_eq_decide]
  refine ⟨hmain, fun he hs => ?_⟩
  rw [hmain, he, hs]
  simp

/-- C2: when the polled build never reaches a terminal status within the
elapsed-time budget, the outcome is the distinguished timeout value,
which differs from every terminal status, and the reported comparison
against any expected terminal status is false. -/
theorem trigger_timeout_outcome_distinct
    (cli : TriggerCli) (envv : JenkinsEnvVars) (server : JenkinsServer)
    (un ut j tk : String) (b : Build)
    (h1 : cli.user_name = some un)
    (h2 : (cli.user_token <|> envv.JENKINS_USER_TOKEN) = some ut)
    (h3 : cli.job = some j)
    (h4 : (cli.token <|> envv.JENKINS_JOB_TOKEN) = some tk)
    (hb : server.builds.get? server.triggeredIdx = some b)
    (hnever : ∀ t, t ≤ cli.timeout.getD (30 * 60) → b.statusAt t = none) :
    trigger_build (cli.url.getD "https://test-jenkins.testeng.edx.org") un ut j tk
        cli.cause cli.param (cli.timeout.getD (30 * 60)) server = none
      ∧ (∀ e : TerminalStatus,
          trigger_build (cli.url.getD "https://test-jenkins.testeng.edx.org") un ut j tk
            cli.cause cli.param (cli.timeout.getD (30 * 60)) server ≠ some e)
      ∧ trigger cli envv server = .completed false := by
  have htb : trigger_build (cli.url.getD "https://test-jenkins.testeng.edx.org") un ut j tk
      cli.cause cli.param (cli.timeout.getD (30 * 60)) server = none := by
    unfold trigger_build
    rw [hb]
    exact pollBuild_eq_none b.statusAt _ 0 (fun u hu1 hu2 => hnever u (by omega))
  refine ⟨htb, fun e h => by rw [htb] at h; exact Option.noConfusion h, ?_⟩
  unfold trigger
  rw [h1, h2, h3, h4]
  simp only [htb]
  simp

/-- C9: the poller reports the status of the specific build instance the
trigger call created, not that of another concurrently queued build of
the same job name: with two builds of the same job queued and the first
being the triggered instance, the result is the poll of the first build's
own timeline and is unchanged when the unrelated build is removed. -/
theorem trigger_build_tracks_triggered_instance
    (url user_name user_token job token : String) (cause : Option String)
    (params : List (String × String)) (timeout : Nat)
    (b other : Build) (hjob : other.job = b.job) :
    trigger_build url user_name user_token job token cause params timeout ⟨[b, other], 0⟩
        = pollBuild b.statusAt 0 (timeout + 1)
      ∧ trigger_build url user_name user_token job token cause params timeout ⟨[b, other], 0⟩
          = trigger_build url user_name user_token job token cause params timeout ⟨[b], 0⟩ :=
  ⟨rfl, rfl⟩

/-- Witness for C1: a concrete run whose build reaches SUCCESS at once,
with the expected status left at its default, reports outcome true. -/
theorem trigger_reports_status_eq_expected_witness :
    trigger ⟨none, some "user", some "utok", some "job", some "jtok", none, [], none, none⟩
        ⟨none, none⟩ ⟨[⟨"job", fun _ => some .SUCCESS⟩], 0⟩ = .completed true :=
  (trigger_reports_status_eq_expected
      ⟨none, some "user", some "utok", some "job", some "jtok", none, [], none, none⟩
      ⟨none, none⟩ ⟨[⟨"job", fun _ => some .SUCCESS⟩], 0⟩ "user" "utok" "job" "jtok" .SUCCESS
      rfl rfl rfl rfl rfl).2 rfl rfl

/-- Witness for C2: a concrete run whose build never turns terminal
within a 3-second budget reports outcome false. -/
theorem trigger_timeout_outcome_distinct_witness :
    trigger ⟨none, some "user", some "utok", some "job", some "jtok", none, [], some 3, none⟩
        ⟨none, none⟩ ⟨[⟨"job", fun _ => none⟩], 0⟩ = .completed false :=
  (trigger_timeout_outcome_distinct
      ⟨none, some "user", some "utok", some "job", some "jtok", none, [], some 3, none⟩
      ⟨none, none⟩ ⟨[⟨"job", fun _ => none⟩], 0⟩ "user" "utok" "job" "jtok"
      ⟨"job", fun _ => none⟩ rfl rfl rfl rfl rfl (fun _ _ => rfl)).2.2

/-- Witness for C9: with a SUCCESS build triggered and a concurrently
queued FAIL build of the same job, the reported status is SUCCESS and is
unchanged when the unrelated build is removed. -/
theorem trigger_build_tracks_triggered_instance_witness :
    trigger_build "https://jenkins.example" "user" "utok" "job" "jtok" none [] 5
        ⟨[⟨"job", fun _ => some .SUCCESS⟩, ⟨"job", fun _ => some .FAIL⟩], 0⟩
        = some TerminalStatus.SUCCESS
      ∧ trigger_build "https://jenkins.example" "user" "utok" "job" "jtok" none [] 5
          ⟨[⟨"job", fun _ => some .SUCCESS⟩, ⟨"job", fun _ => some .FAIL⟩], 0⟩
          = trigger_build "https://jenkins.example" "user" "utok" "job" "jtok" none [] 5
              ⟨[⟨"job", fun _ => some .SUCCESS⟩], 0⟩ :=
  ⟨by
    rw [(trigger_build_tracks_triggered_instance "https://jenkins.example" "user" "utok"
        "job" "jtok" none [] 5 ⟨"job", fun _ => some .SUCCESS⟩
        ⟨"job", fun _ => some .FAIL⟩ rfl).1]
    rfl,
    (trigger_build_tracks_triggered_instance "https://jenkins.example" "user" "utok"
        "job" "jtok" none [] 5 ⟨"job", fun _ => some .SUCCESS⟩
        ⟨"job", fun _ => some .FAIL⟩ rfl).2⟩

/-! ## Lemmas about the publisher's execution paths -/

/-- With valid arguments, a parsed config whose bucket value is truthy,
and a sync exit status of 0, the run reduces to the post-sync step:
the purge block when the flag is set, else a clean exit. -/
theorem frontend_deploy_after_sync
    (ecf an ad : String) (hecf : ecf.isEmpty = false) (han : an.isEmpty = false)
    (had : ad.isEmpty = false) (cfg : Config) (v : ConfigVal)
    (hb : Config.get cfg "S3_BUCKET_NAME" = some v) (hv : v.truthy = true)
    (cdn : CdnEnv) (pc : Bool) :
    frontend_deploy (some ecf) (some an) (some ad) pc ⟨.ok cfg, 0, cdn⟩ =
      if pc then
        match v with
        | .strv b => purge_step b cdn
        | _ => ⟨1, none, true, true, false, none, none⟩
      else ⟨0, none, false, true, false, none, none⟩ := by
  unfold frontend_deploy
  simp only [falsyOpt, hecf, han, had, hb, hv, Bool.false_eq_true, if_false,
    Bool.not_true, bne_self_eq_false, ite_false]
  cases pc
  · rfl
  · cases v <;> rfl

/-- Every branch of the purge block passes the derived zone name to the
zone lookup. -/
theorem purge_step_zoneLookup (b : String) (cdn : CdnEnv) :
    (purge_step b cdn).zoneLookup = some (zone_name b) := by
  rcases cdn with ⟨g, zs, p⟩
  cases g
  · cases zs with
    | nil => rfl
    | cons z rest =>
      cases z
      · rfl
      · cases p <;> rfl
  · rfl

/-! ## Claims about the publisher -/

/-- C4: with the purge flag set and a string bucket name read from the
config, the zone name passed to the CDN zone lookup is the last two
dot-separated labels of the bucket name joined by a dot; in particular
bucket name www.example.com yields zone name example.com. -/
theorem zone_lookup_uses_last_two_labels
    (ecf an ad : String) (hecf : ecf.isEmpty = false) (han : an.isEmpty = false)
    (had : ad.isEmpty = false) (cfg : Config) (b : String)
    (hb : Config.get cfg "S3_BUCKET_NAME" = some (.strv b)) (hbt : b.isEmpty = false)
    (cdn : CdnEnv) :
    (frontend_deploy (some ecf) (some an) (some ad) true ⟨.ok cfg, 0, cdn⟩).zoneLookup
        = some (zone_name b)
      ∧ (∀ (ls : List String) (p q : String),
          pySplit b '.' = ls ++ [p, q] → zone_name b = p ++ "." ++ q)
      ∧ zone_name "www.example.com" = "example.com" := by
  refine ⟨?_, ?_, by decide⟩
  · rw [frontend_deploy_after_sync ecf an ad hecf han had cfg (.strv b) hb
        (by simp [ConfigVal.truthy, hbt]) cdn true]
    exact purge_step_zoneLookup b cdn
  · intro ls p q hsplit
    unfold zone_name lastTwo
    rw [hsplit]
    have hlen : (ls ++ [p, q]).length - 2 = ls.length := by
      simp
    rw [hlen, List.drop_left]
    rfl

/-- C6: a config that parses to a mapping with no S3_BUCKET_NAME key is
fatal with exit code 1 and the descriptive message, before the sync
subprocess is started. -/
theorem missing_bucket_key_fails_before_sync
    (ecf an ad : String) (hecf : ecf.isEmpty = false) (han : an.isEmpty = false)
    (had : ad.isEmpty = false) (cfg : Config)
    (hb : Config.get cfg "S3_BUCKET_NAME" = none)
    (pc : Bool) (se : Int) (cdn : CdnEnv) :
    frontend_deploy (some ecf) (some an) (some ad) pc ⟨.ok cfg, se, cdn⟩
        = FAIL 1 ("No S3 bucket name configured for " ++ an ++ ".") false false none none
      ∧ (frontend_deploy (some ecf) (some an) (some ad) pc ⟨.ok cfg, se, cdn⟩).exitCode = 1
      ∧ (frontend_deploy (some ecf) (some an) (some ad) pc ⟨.ok cfg, se, cdn⟩).syncInvoked
          = false := by
  have h : frontend_deploy (some ecf) (some an) (some ad) pc ⟨.ok cfg, se, cdn⟩
      = FAIL 1 ("No S3 bucket name configured for " ++ an ++ ".") false false none none := by
    unfold frontend_deploy
    simp [falsyOpt, hecf, han, had, hb]
  exact ⟨h, by rw [h]; rfl, by rw [h]; rfl⟩

/-- C8: a successful sync with the purge flag unset exits 0 without
constructing the CDN client, looking up a zone, or purging. -/
theorem sync_ok_no_purge_exits_zero
    (ecf an ad : String) (hecf : ecf.isEmpty = false) (han : an.isEmpty = false)
    (had : ad.isEmpty = false) (cfg : Config) (v : ConfigVal)
    (hb : Config.get cfg "S3_BUCKET_NAME" = some v) (hv : v.truthy = true)
    (cdn : CdnEnv) :
    (frontend_deploy (some ecf) (some an) (some ad) false ⟨.ok cfg, 0, cdn⟩).exitCode = 0
      ∧ (frontend_deploy (some ecf) (some an) (some ad) false
          ⟨.ok cfg, 0, cdn⟩).cdnConstructed = false
      ∧ (frontend_deploy (some ecf) (some an) (some ad) false
          ⟨.ok cfg, 0, cdn⟩).zoneLookup = none
      ∧ (frontend_deploy (some ecf) (some an) (some ad) false
          ⟨.ok cfg, 0, cdn⟩).purgeCalled = none
      ∧ (frontend_deploy (some ecf) (some an) (some ad) false
          ⟨.ok cfg, 0, cdn⟩).syncInvoked = true := by
  rw [frontend_deploy_after_sync ecf an ad hecf han had cfg v hb hv cdn false]
  exact ⟨rfl, rfl, rfl, rfl, rfl⟩

/-- C10: a present S3_BUCKET_NAME key bound to a falsy value fails
exactly like a missing key: exit code 1, the same message, before the
sync subprocess is started. -/
theorem falsy_bucket_value_fails_like_missing_key
    (ecf an ad : String) (hecf : ecf.isEmpty = false) (han : an.isEmpty = false)
    (had : ad.isEmpty = false) (cfg : Config) (v : ConfigVal)
    (hb : Config.get cfg "S3_BUCKET_NAME" = some v) (hv : v.truthy = false)
    (pc : Bool) (se : Int) (cdn : CdnEnv) :
    frontend_deploy (some ecf) (some an) (some ad) pc ⟨.ok cfg, se, cdn⟩
        = FAIL 1 ("No S3 bucket name configured for " ++ an ++ ".") false false none none
      ∧ (frontend_deploy (some ecf) (some an) (some ad) pc ⟨.ok cfg, se, cdn⟩).exitCode = 1
      ∧ (frontend_deploy (some ecf) (some an) (some ad) pc ⟨.ok cfg, se, cdn⟩).syncInvoked
          = false := by
  have h : frontend_deploy (some ecf) (some an) (some ad) pc ⟨.ok cfg, se, cdn⟩
      = FAIL 1 ("No S3 bucket name configured for " ++ an ++ ".") false false none none := by
    unfold frontend_deploy
    simp [falsyOpt, hecf, han, had, hb, hv]
  exact ⟨h, by rw [h]; rfl, by rw [h]; rfl⟩

/-- Every failing branch of the purge block (API error on the zone
lookup, no matching zone, record without an id, API error on the purge
post) is fatal with exit code 1 and the descriptive message, with the
sync already done. -/
theorem purge_step_failure_cases (b : String) (cdn : CdnEnv)
    (hfail : cdn.apiErrorOnGet = true ∨ cdn.zones = [] ∨
      (∃ rest, cdn.zones = none :: rest) ∨
      (∃ zid rest, cdn.zones = some zid :: rest ∧ cdn.apiErrorOnPurge = true)) :
    (purge_step b cdn).exitCode = 1
      ∧ (purge_step b cdn).failLog
          = some (SCRIPT_SHORTNAME,
              "Failed to purge the Cloudflare cache for hostname " ++ b ++ ".")
      ∧ (purge_step b cdn).syncInvoked = true := by
  obtain ⟨g, zs, p⟩ := cdn
  dsimp only at hfail
  rcases hfail with hg | hz | ⟨rest, hz⟩ | ⟨zid, rest, hz, hp⟩
  · subst hg; exact ⟨rfl, rfl, rfl⟩
  · subst hz; cases g <;> exact ⟨rfl, rfl, rfl⟩
  · subst hz; cases g <;> exact ⟨rfl, rfl, rfl⟩
  · subst hz; subst hp; cases g <;> exact ⟨rfl, rfl, rfl⟩

/-- C5: with the purge flag set, a successful sync followed by a failing
CDN step (API error, no matching zone, or malformed response) is fatal
with exit code 1 and a descriptive message, and the completed sync is
not rolled back. -/
theorem cdn_failure_fatal_after_sync
    (ecf an ad : String) (hecf : ecf.isEmpty = false) (han : an.isEmpty = false)
    (had : ad.isEmpty = false) (cfg : Config) (b : String)
    (hb : Config.get cfg "S3_BUCKET_NAME" = some (.strv b)) (hbt : b.isEmpty = false)
    (cdn : CdnEnv)
    (hfail : cdn.apiErrorOnGet = true ∨ cdn.zones = [] ∨
      (∃ rest, cdn.zones = none :: rest) ∨
      (∃ zid rest, cdn.zones = some zid :: rest ∧ cdn.apiErrorOnPurge = true)) :
    (frontend_deploy (some ecf) (some an) (some ad) true ⟨.ok cfg, 0, cdn⟩).exitCode = 1
      ∧ (frontend_deploy (some ecf) (some an) (some ad) true ⟨.ok cfg, 0, cdn⟩).failLog
          = some (SCRIPT_SHORTNAME,
              "Failed to purge the Cloudflare cache for hostname " ++ b ++ ".")
      ∧ (frontend_deploy (some ecf) (some an) (some ad) true
          ⟨.ok cfg, 0, cdn⟩).syncInvoked = true := by
  have h : frontend_deploy (some ecf) (some an) (some ad) true ⟨.ok cfg, 0, cdn⟩
      = purge_step b cdn := by
    rw [frontend_deploy_after_sync ecf an ad hecf han had cfg (.strv b) hb
        (by simp [ConfigVal.truthy, hbt]) cdn true]
    rfl
  obtain ⟨h1, h2, h3⟩ := purge_step_failure_cases b cdn hfail
  refine ⟨?_, ?_, ?_⟩ <;> rw [h]
  exacts [h1, h2, h3]

/-- C7 counterexample: a malformed (unparseable) config file terminates
the publisher with exit code 1 before any remote call, but through an
uncaught YAML parse exception: no formatted fatal log line naming the
script's short label is produced, because the script catches only
IOError around the config read. -/
theorem malformed_config_produces_no_formatted_log :
    (frontend_deploy (some "env.yml") (some "app") (some "dist") false
        ⟨.parseError, 0, ⟨false, [], false⟩⟩).failLog = none
      ∧ (frontend_deploy (some "env.yml") (some "app") (some "dist") false
          ⟨.parseError, 0, ⟨false, [], false⟩⟩).uncaught = true
      ∧ (frontend_deploy (some "env.yml") (some "app") (some "dist") false
          ⟨.parseError, 0, ⟨false, [], false⟩⟩).exitCode = 1
      ∧ (frontend_deploy (some "env.yml") (some "app") (some "dist") false
          ⟨.parseError, 0, ⟨false, [], false⟩⟩).syncInvoked = false :=
  ⟨rfl, rfl, rfl, rfl⟩

/-- C7 amended: an unreadable config file is fatal immediately with exit
code 1 and a single formatted log line naming the script's short label
and the offending file name; a malformed config file is likewise fatal
immediately with exit code 1 before any remote call, but via an uncaught
parse exception, without the formatted log line. -/
theorem config_errors_fatal_before_remote_calls
    (ecf an ad : String) (hecf : ecf.isEmpty = false) (han : an.isEmpty = false)
    (had : ad.isEmpty = false) (pc : Bool) (se : Int) (cdn : CdnEnv) :
    frontend_deploy (some ecf) (some an) (some ad) pc ⟨.ioError, se, cdn⟩
        = FAIL 1 ("Environment config file " ++ ecf ++ " could not be opened.")
            false false none none
      ∧ (frontend_deploy (some ecf) (some an) (some ad) pc ⟨.ioError, se, cdn⟩).failLog
          = some (SCRIPT_SHORTNAME,
              "Environment config file " ++ ecf ++ " could not be opened.")
      ∧ frontend_deploy (some ecf) (some an) (some ad) pc ⟨.parseError, se, cdn⟩
          = ⟨1, none, true, false, false, none, none⟩ := by
  have h1 : frontend_deploy (some ecf) (some an) (some ad) pc ⟨.ioError, se, cdn⟩
      = FAIL 1 ("Environment config file " ++ ecf ++ " could not be opened.")
          false false none none := by
    unfold frontend_deploy
    simp [falsyOpt, hecf, han, had]
  refine ⟨h1, by rw [h1]; rfl, ?_⟩
  unfold frontend_deploy
  simp [falsyOpt, hecf, han, had]

/-- C3 counterexample: the CI trigger script invoked with every required
option missing (no flags, no environment fallbacks) aborts through
click's usage error with process exit code 2, not 1. -/
theorem missing_required_option_exits_two :
    trigger ⟨none, none, none, none, none, none, [], none, none⟩ ⟨none, none⟩ ⟨[], 0⟩
        = TriggerRun.usage 2
      ∧ trigger ⟨none, none, none, none, none, none, [], none, none⟩ ⟨none, none⟩ ⟨[], 0⟩
          ≠ TriggerRun.usage 1 :=
  ⟨rfl, by decide⟩

/-- C3 amended: for the publisher, a missing required option
(env-config-file, app-name or app-dist) is fatal with exit code 1 before
any remote call; for the CI trigger, a user_name, user_token, job or
token that resolves to no value (absent both as flag and as environment
fallback) aborts with click's usage error, exit code 2, before any
remote call (the url option has a declared default, so its absence alone
causes no error). -/
theorem missing_required_args_fail_before_remote_calls
    (ecf an ad : Option String) (pc : Bool) (env : DeployEnv)
    (hfd : ecf = none ∨ an = none ∨ ad = none)
    (cli : TriggerCli) (envv : JenkinsEnvVars) (server : JenkinsServer)
    (hj : cli.user_name = none ∨ (cli.user_token <|> envv.JENKINS_USER_TOKEN) = none ∨
      cli.job = none ∨ (cli.token <|> envv.JENKINS_JOB_TOKEN) = none) :
    ((frontend_deploy ecf an ad pc env).exitCode = 1
        ∧ (frontend_deploy ecf an ad pc env).syncInvoked = false
        ∧ (frontend_deploy ecf an ad pc env).cdnConstructed = false)
      ∧ (trigger cli envv server = .usage 2
        ∧ (trigger cli envv server).remoteCalled = false) := by
  constructor
  · have hfal : falsyOpt ecf = true ∨ falsyOpt an = true ∨ falsyOpt ad = true := by
      rcases hfd with h | h | h <;> subst h <;> simp [falsyOpt]
    by_cases h1 : falsyOpt ecf = true
    · unfold frontend_deploy
      simp only [h1, if_true]
      exact ⟨rfl, rfl, rfl⟩
    · simp only [Bool.not_eq_true] at h1
      by_cases h2 : falsyOpt an = true
      · unfold frontend_deploy
        simp only [h1, h2, Bool.false_eq_true, if_false, if_true]
        exact ⟨rfl, rfl, rfl⟩
      · simp only [Bool.not_eq_true] at h2
        have h3 : falsyOpt ad = true := by
          rcases hfal with h | h | h
          · rw [h1] at h; exact absurd h (by simp)
          · rw [h2] at h; exact absurd h (by simp)
          · exact h
        unfold frontend_deploy
        simp only [h1, h2, h3, Bool.false_eq_true, if_false, if_true]
        exact ⟨rfl, rfl, rfl⟩
  · have htrig : trigger cli envv server = TriggerRun.usage 2 := by
      simp only [trigger]
      rcases hj with h | h | h | h
      · rw [h]
      · rw [h]; cases cli.user_name <;> rfl
      · rw [h]
        cases cli.user_name <;> cases cli.user_token <|> envv.JENKINS_USER_TOKEN <;> rfl
      · rw [h]
        cases cli.user_name <;> cases cli.user_token <|> envv.JENKINS_USER_TOKEN <;>
          cases cli.job <;> rfl
    exact ⟨htrig, by rw [htrig]; rfl⟩

/-! ## Concrete witnesses for the publisher claims -/

/-- Witness for C4: bucket name www.example.com yields a zone lookup for
example.com. -/
theorem zone_lookup_uses_last_two_labels_witness :
    (frontend_deploy (some "env.yml") (some "app") (some "dist") true
        ⟨.ok [("S3_BUCKET_NAME", .strv "www.example.com")], 0,
          ⟨false, [some "zid"], false⟩⟩).zoneLookup = some "example.com" := by
  have h := zone_lookup_uses_last_two_labels "env.yml" "app" "dist" rfl rfl rfl
      [("S3_BUCKET_NAME", .strv "www.example.com")] "www.example.com" rfl rfl
      ⟨false, [some "zid"], false⟩
  rw [h.1, h.2.2]

/-- Witness for C5: an empty zone-lookup response after a successful
sync is fatal with exit code 1, the sync having run. -/
theorem cdn_failure_fatal_after_sync_witness :
    (frontend_deploy (some "env.yml") (some "app") (some "dist") true
        ⟨.ok [("S3_BUCKET_NAME", .strv "www.example.com")], 0,
          ⟨false, [], false⟩⟩).exitCode = 1
      ∧ (frontend_deploy (some "env.yml") (some "app") (some "dist") true
          ⟨.ok [("S3_BUCKET_NAME", .strv "www.example.com")], 0,
            ⟨false, [], false⟩⟩).syncInvoked = true :=
  ⟨(cdn_failure_fatal_after_sync "env.yml" "app" "dist" rfl rfl rfl
      [("S3_BUCKET_NAME", .strv "www.example.com")] "www.example.com" rfl rfl
      ⟨false, [], false⟩ (Or.inr (Or.inl rfl))).1,
    (cdn_failure_fatal_after_sync "env.yml" "app" "dist" rfl rfl rfl
      [("S3_BUCKET_NAME", .strv "www.example.com")] "www.example.com" rfl rfl
      ⟨false, [], false⟩ (Or.inr (Or.inl rfl))).2.2⟩

/-- Witness for C6: an empty config mapping is fatal with exit code 1
and no sync subprocess started. -/
theorem missing_bucket_key_fails_before_sync_witness :
    (frontend_deploy (some "env.yml") (some "app") (some "dist") false
        ⟨.ok [], 0, ⟨false, [], false⟩⟩).exitCode = 1
      ∧ (frontend_deploy (some "env.yml") (some "app") (some "dist") false
          ⟨.ok [], 0, ⟨false, [], false⟩⟩).syncInvoked = false :=
  ⟨(missing_bucket_key_fails_before_sync "env.yml" "app" "dist" rfl rfl rfl [] rfl
      false 0 ⟨false, [], false⟩).2.1,
    (missing_bucket_key_fails_before_sync "env.yml" "app" "dist" rfl rfl rfl [] rfl
      false 0 ⟨false, [], false⟩).2.2⟩

/-- Witness for C8: a successful sync with the purge flag unset exits 0
with no CDN activity. -/
theorem sync_ok_no_purge_exits_zero_witness :
    (frontend_deploy (some "env.yml") (some "app") (some "dist") false
        ⟨.ok [("S3_BUCKET_NAME", .strv "www.example.com")], 0,
          ⟨false, [], false⟩⟩).exitCode = 0
      ∧ (frontend_deploy (some "env.yml") (some "app") (some "dist") false
          ⟨.ok [("S3_BUCKET_NAME", .strv "www.example.com")], 0,
            ⟨false, [], false⟩⟩).cdnConstructed = false :=
  ⟨(sync_ok_no_purge_exits_zero "env.yml" "app" "dist" rfl rfl rfl
      [("S3_BUCKET_NAME", .strv "www.example.com")] (.strv "www.example.com") rfl rfl
      ⟨false, [], false⟩).1,
    (sync_ok_no_purge_exits_zero "env.yml" "app" "dist" rfl rfl rfl
      [("S3_BUCKET_NAME", .strv "www.example.com")] (.strv "www.example.com") rfl rfl
      ⟨false, [], false⟩).2.1⟩

/-- Witness for C10: a bucket-name key bound to the empty string is
fatal with exit code 1 before the sync subprocess starts. -/
theorem falsy_bucket_value_fails_like_missing_key_witness :
    (frontend_deploy (some "env.yml") (some "app") (some "dist") false
        ⟨.ok [("S3_BUCKET_NAME", .strv "")], 0, ⟨false, [], false⟩⟩).exitCode = 1
      ∧ (frontend_deploy (some "env.yml") (some "app") (some "dist") false
          ⟨.ok [("S3_BUCKET_NAME", .strv "")], 0, ⟨false, [], false⟩⟩).syncInvoked
          = false :=
  ⟨(falsy_bucket_value_fails_like_missing_key "env.yml" "app" "dist" rfl rfl rfl
      [("S3_BUCKET_NAME", .strv "")] (.strv "") rfl rfl false 0 ⟨false, [], false⟩).2.1,
    (falsy_bucket_value_fails_like_missing_key "env.yml" "app" "dist" rfl rfl rfl
      [("S3_BUCKET_NAME", .strv "")] (.strv "") rfl rfl false 0 ⟨false, [], false⟩).2.2⟩

/-- Witness for the amended C7: a concrete unreadable config file yields
the formatted fatal log line and a concrete malformed one the uncaught
termination. -/
theorem config_errors_fatal_before_remote_calls_witness :
    (frontend_deploy (some "env.yml") (some "app") (some "dist") false
        ⟨.ioError, 0, ⟨false, [], false⟩⟩).failLog
        = some (SCRIPT_SHORTNAME, "Environment config file env.yml could not be opened.")
      ∧ frontend_deploy (some "env.yml") (some "app") (some "dist") false
          ⟨.parseError, 0, ⟨false, [], false⟩⟩
          = ⟨1, none, true, false, false, none, none⟩ :=
  ⟨(config_errors_fatal_before_remote_calls "env.yml" "app" "dist" rfl rfl rfl
      false 0 ⟨false, [], false⟩).2.1,
    (config_errors_fatal_before_remote_calls "env.yml" "app" "dist" rfl rfl rfl
      false 0 ⟨false, [], false⟩).2.2⟩

/-- Witness for the amended C3: a publisher run with no options at all
fails with exit code 1 and no remote action, and a trigger run with no
options and no environment fallbacks aborts with usage exit code 2. -/
theorem missing_required_args_fail_before_remote_calls_witness :
    (frontend_deploy none none none false ⟨.ok [], 0, ⟨false, [], false⟩⟩).exitCode = 1
      ∧ trigger ⟨none, none, none, none, none, none, [], none, none⟩ ⟨none, none⟩
          ⟨[], 0⟩ = .usage 2 :=
  ⟨(missing_required_args_fail_before_remote_calls none none none false
      ⟨.ok [], 0, ⟨false, [], false⟩⟩ (Or.inl rfl)
      ⟨none, none, none, none, none, none, [], none, none⟩ ⟨none, none⟩ ⟨[], 0⟩
      (Or.inl rfl)).1.1,
    (missing_required_args_fail_before_remote_calls none none none false
      ⟨.ok [], 0, ⟨false, [], false⟩⟩ (Or.inl rfl)
      ⟨none, none, none, none, none, none, [], none, none⟩ ⟨none, none⟩ ⟨[], 0⟩
      (Or.inl rfl)).2.1⟩

end Tubular
